import Mathlib

/-!
Shallow embedding of the OCSP response signing engine (package `ocsp`,
file `ocsp.go`) and verification of its specification.

Modelling conventions:
* `time.Time` and `time.Duration` are modelled as integer counts of
  nanoseconds (`time.Time` measured since Go's zero time, which is also the
  zero value of the type).
* Go nil-able pointers (`*x509.Certificate`, the `crypto.Signer` interface)
  are modelled as `Option`; dereferencing `none` is the distinguished
  outcome `GoResult.nilDeref` (a Go runtime panic).
* External collaborators (`CheckSignatureFrom`, `ocsp.CreateResponse`,
  `ioutil.ReadFile`, `helpers.ParseCertificatePEM`,
  `helpers.ParsePrivateKeyPEM`) are taken as function parameters, so every
  theorem quantifies over their behaviour.
* Go `error` values are modelled as `String` (the message passed to
  `errors.New`); a nil error from `CheckSignatureFrom` is modelled by the
  oracle returning `true`.
-/

namespace Ocsp

/-- Nanoseconds since Go's zero time (model of `time.Time`). -/
abbrev Time := Int

/-- Nanosecond count (model of `time.Duration`). -/
abbrev Duration := Int

/-- `time.Second` in nanoseconds. -/
def Second : Duration := 1000000000

/-- `time.Hour` in nanoseconds. -/
def Hour : Duration := 3600000000000

/-- Model of `time.Time.Round`: the nearest multiple of `d` since the zero
time, with halfway values rounding up (Go's documented behaviour). -/
def timeRound (t : Time) (d : Duration) : Time :=
  let r := t % d
  if 2 * r < d then t - r else t - r + d

/-- The fields of `x509.Certificate` that the engine reads: the raw DER
bytes of the issuer and subject distinguished names, and the serial. -/
structure Certificate where
  rawIssuer : List Nat
  rawSubject : List Nat
  serialNumber : Int
deriving DecidableEq, Repr

/-- Opaque model of a `crypto.Signer` private key. -/
structure Key where
  keyBytes : List Nat
deriving DecidableEq, Repr

/-- `ocsp.Good`, from golang.org/x/crypto/ocsp. -/
def ocspGood : Int := 0

/-- `ocsp.Revoked`, from golang.org/x/crypto/ocsp. -/
def ocspRevoked : Int := 1

/-- `ocsp.Unknown`, from golang.org/x/crypto/ocsp. -/
def ocspUnknown : Int := 2

/-- The `statusCode` map: `{"good": ocsp.Good, "revoked": ocsp.Revoked,
"unknown": ocsp.Unknown}`; lookup misses return `none` (Go's `ok = false`). -/
def statusCode (st : String) : Option Int :=
  if st = "good" then some ocspGood
  else if st = "revoked" then some ocspRevoked
  else if st = "unknown" then some ocspUnknown
  else none

/-- `SignRequest`: desired contents of a specific OCSP response. -/
structure SignRequest where
  certificate : Option Certificate
  status : String
  reason : Int
  revokedAt : Time
deriving DecidableEq, Repr

/-- `StandardSigner`: issuer cert, responder cert, responder key, interval. -/
structure StandardSigner where
  issuer : Option Certificate
  responder : Option Certificate
  key : Option Key
  interval : Duration
deriving DecidableEq, Repr

/-- The fields of `ocsp.Response` that `Sign` populates. A Go struct
literal leaves `RevokedAt` and `RevocationReason` at their zero values
(the zero time, i.e. `0`, and `0`). -/
structure OcspResponse where
  status : Int
  serialNumber : Int
  thisUpdate : Time
  nextUpdate : Time
  certificate : Option Certificate
  revokedAt : Time
  revocationReason : Int
deriving DecidableEq, Repr

/-- Outcome of a Go function returning `([]byte, error)` or similar:
normal success, a non-nil error, or a runtime panic (nil dereference). -/
inductive GoResult (α : Type) where
  | ok : α → GoResult α
  | err : String → GoResult α
  | nilDeref : GoResult α
deriving DecidableEq, Repr

/-- Map over the success value of a `GoResult`. -/
def GoResult.map {α β : Type} (f : α → β) : GoResult α → GoResult β
  | .ok a => .ok (f a)
  | .err e => .err e
  | .nilDeref => .nilDeref

/-- Oracle for `req.Certificate.CheckSignatureFrom(s.issuer)`:
`true` models a nil error (the signature verifies). -/
abbrev CheckSigFn := Certificate → Certificate → Bool

/-- Oracle for `ocsp.CreateResponse(issuer, responder, template, key)`. -/
abbrev CreateResponseFn :=
  Option Certificate → Option Certificate → OcspResponse → Option Key → GoResult (List Nat)

/-- The body of `StandardSigner.Sign` up to and including template
assembly: presence check, issuer-name check, signature-chain check,
timestamp computation, status resolution, template assembly.  `Sign`
passes the resulting template straight to `ocsp.CreateResponse`. -/
def StandardSigner.signTemplate (s : StandardSigner) (checkSignatureFrom : CheckSigFn)
    (now : Time) (req : SignRequest) : GoResult OcspResponse :=
  match req.certificate with
  | none => .err "TODO"
  | some cert =>
    -- Go dereferences s.issuer (s.issuer.RawSubject); nil issuer panics.
    match s.issuer with
    | none => .nilDeref
    | some issuer =>
      -- if bytes.Compare(req.Certificate.RawIssuer, s.issuer.RawSubject) != 0
      if cert.rawIssuer ≠ issuer.rawSubject then .err "TODO"
      -- if req.Certificate.CheckSignatureFrom(s.issuer) != nil
      else if checkSignatureFrom cert issuer = false then .err "TODO"
      else
        -- thisUpdate := time.Now().Round(time.Hour)
        let thisUpdate := timeRound now Hour
        let nextUpdate := thisUpdate + s.interval
        match statusCode req.status with
        | none => .err "TODO"
        | some status =>
          let template : OcspResponse :=
            { status := status
              serialNumber := cert.serialNumber
              thisUpdate := thisUpdate
              nextUpdate := nextUpdate
              certificate := s.responder
              revokedAt := 0
              revocationReason := 0 }
          if status = ocspRevoked then
            .ok { template with revokedAt := req.revokedAt, revocationReason := req.reason }
          else
            .ok template

/-- `StandardSigner.Sign`: validate, build the template, then delegate to
`ocsp.CreateResponse(s.issuer, s.responder, template, s.key)`. -/
def StandardSigner.Sign (s : StandardSigner) (checkSignatureFrom : CheckSigFn)
    (createResponse : CreateResponseFn) (now : Time) (req : SignRequest) :
    GoResult (List Nat) :=
  match s.signTemplate checkSignatureFrom now req with
  | .ok template => createResponse s.issuer s.responder template s.key
  | .err e => .err e
  | .nilDeref => .nilDeref

/-- `NewSigner(issuer, responder, key, interval)`: builds the
`StandardSigner` with `interval` converted from seconds
(`time.Duration(interval) * time.Second`) and always returns a nil error. -/
def NewSigner (issuer responder : Option Certificate) (key : Option Key)
    (interval : Int) : Except String StandardSigner :=
  .ok { issuer := issuer
        responder := responder
        key := key
        interval := interval * Second }

/-- Oracle for `ioutil.ReadFile`. -/
abbrev ReadFileFn := String → Except String (List Nat)

/-- Oracle for `helpers.ParseCertificatePEM` (a non-nil certificate on
success). -/
abbrev ParseCertFn := List Nat → Except String Certificate

/-- Oracle for `helpers.ParsePrivateKeyPEM`. -/
abbrev ParseKeyFn := List Nat → Except String Key

/-- `NewStandardSignerFromFile(issuerFile, responderFile, keyFile,
interval)`.  Beware: the source's second `ReadFile` call is
`ioutil.ReadFile(issuerFile)` — the responder bytes are read from
`issuerFile`, and `responderFile` is only mentioned in a debug log. -/
def NewStandardSignerFromFile (readFile : ReadFileFn)
    (parseCertificatePEM : ParseCertFn) (parsePrivateKeyPEM : ParseKeyFn)
    (issuerFile responderFile keyFile : String) (interval : Int) :
    Except String StandardSigner :=
  match readFile issuerFile with
  | .error e => .error e
  | .ok issuerBytes =>
    -- responderBytes, err := ioutil.ReadFile(issuerFile)   <-- issuerFile!
    match readFile issuerFile with
    | .error e => .error e
    | .ok responderBytes =>
      match readFile keyFile with
      | .error e => .error ("CertificateError.ReadFailed: " ++ e)
      | .ok keyBytes =>
        match parseCertificatePEM issuerBytes with
        | .error e => .error e
        | .ok issuerCert =>
          match parseCertificatePEM responderBytes with
          | .error e => .error e
          | .ok responderCert =>
            match parsePrivateKeyPEM keyBytes with
            | .error e => .error e
            | .ok key =>
              NewSigner (some issuerCert) (some responderCert) (some key) interval

/-- What the spec's words prescribe for `thisUpdate`: the current time
rounded down to the start of the current hour (minutes, seconds and
sub-second components truncated). -/
def specTruncateToHour (t : Time) : Time := t - t % Hour

/-! ### Concrete values used by witnesses and counterexamples -/

/-- A sample issuer certificate. -/
def exIssuer : Certificate :=
  { rawIssuer := [10], rawSubject := [1, 2], serialNumber := 5 }

/-- A sample responder certificate. -/
def exResponder : Certificate :=
  { rawIssuer := [1, 2], rawSubject := [3], serialNumber := 6 }

/-- A sample responder key. -/
def exKey : Key := { keyBytes := [7] }

/-- A sample signer with a 3600-second interval. -/
def exSigner : StandardSigner :=
  { issuer := some exIssuer, responder := some exResponder,
    key := some exKey, interval := 3600 * Second }

/-- A certificate whose raw issuer name equals `exIssuer`'s raw subject. -/
def exCert : Certificate :=
  { rawIssuer := [1, 2], rawSubject := [4], serialNumber := 42 }

/-- A certificate from a different authority (issuer name mismatch). -/
def exForeignCert : Certificate :=
  { rawIssuer := [9, 9], rawSubject := [4], serialNumber := 43 }

/-- Signature-verification oracle that always verifies. -/
def checkTrue : CheckSigFn := fun _ _ => true

/-- Signature-verification oracle that always fails. -/
def checkFalse : CheckSigFn := fun _ _ => false

/-- A `CreateResponse` oracle producing a fixed byte string. -/
def exCreate : CreateResponseFn := fun _ _ _ _ => .ok [0]

/-- Request with no certificate. -/
def exReqNoCert : SignRequest :=
  { certificate := none, status := "good", reason := 0, revokedAt := 0 }

/-- Request whose certificate names a different issuer. -/
def exReqForeign : SignRequest :=
  { certificate := some exForeignCert, status := "good", reason := 0, revokedAt := 0 }

/-- Well-formed request with status `good` (and populated revocation data,
to exercise the field-isolation invariant). -/
def exReqGood : SignRequest :=
  { certificate := some exCert, status := "good", reason := 3, revokedAt := 777 }

/-- Well-formed request with status `revoked`. -/
def exReqRevoked : SignRequest :=
  { certificate := some exCert, status := "revoked", reason := 1, revokedAt := 12345 }

/-- Request with an unrecognized status token. -/
def exReqBogus : SignRequest :=
  { certificate := some exCert, status := "bogus", reason := 0, revokedAt := 0 }

/-! ### Claims -/

/-- Claim C7: for every identity, `Sign` on a request with an absent
certificate returns the invalid-request error as its first check: the
result is the same for every signer (even one whose issuer is nil, so no
name comparison happened), every signature oracle (no cryptographic
verification), every `CreateResponse` oracle (no encoding), and every
clock reading (no timestamp computation). -/
theorem Sign_missing_certificate_rejected (s : StandardSigner)
    (check : CheckSigFn) (create : CreateResponseFn) (now : Time)
    (req : SignRequest) (h : req.certificate = none) :
    s.Sign check create now req = GoResult.err "TODO" := by
  simp [StandardSigner.Sign, StandardSigner.signTemplate, h]

/-- Witness for C7 at a concrete request with no certificate. -/
theorem Sign_missing_certificate_rejected_witness :
    exReqNoCert.certificate = none ∧
    exSigner.Sign checkTrue exCreate 0 exReqNoCert = GoResult.err "TODO" :=
  ⟨rfl, Sign_missing_certificate_rejected exSigner checkTrue exCreate 0 exReqNoCert rfl⟩

/-- Claim C2: when the request certificate's raw issuer DN differs
byte-for-byte from the identity issuer's raw subject DN, `Sign` fails with
the invalid-request error; the result is identical for every
signature-verification oracle, so no cryptographic verification is
attempted before the rejection. -/
theorem Sign_issuer_name_mismatch_rejected (s : StandardSigner)
    (issuer cert : Certificate) (check : CheckSigFn) (create : CreateResponseFn)
    (now : Time) (req : SignRequest)
    (hc : req.certificate = some cert) (hi : s.issuer = some issuer)
    (hname : cert.rawIssuer ≠ issuer.rawSubject) :
    s.Sign check create now req = GoResult.err "TODO" ∧
    (∀ check2 : CheckSigFn, s.Sign check create now req = s.Sign check2 create now req) := by
  constructor
  · simp [StandardSigner.Sign, StandardSigner.signTemplate, hc, hi, hname]
  · intro check2
    simp [StandardSigner.Sign, StandardSigner.signTemplate, hc, hi, hname]

/-- Witness for C2 at a concrete foreign certificate. -/
theorem Sign_issuer_name_mismatch_rejected_witness :
    exForeignCert.rawIssuer ≠ exIssuer.rawSubject ∧
    exSigner.Sign checkTrue exCreate 0 exReqForeign = GoResult.err "TODO" :=
  ⟨by decide,
   (Sign_issuer_name_mismatch_rejected exSigner exIssuer exForeignCert checkTrue
      exCreate 0 exReqForeign rfl rfl (by decide)).1⟩

/-- Claim C1: when the certificate is present and its issuer name matches
the identity issuer's subject but the certificate's signature does not
verify against the issuer (`CheckSignatureFrom` returns a non-nil error,
modelled by the oracle returning `false`), `Sign` fails with the
invalid-request error and produces no signed bytes, for every
`CreateResponse` oracle, clock reading and request status: the
signature-chain check is never skipped. -/
theorem Sign_bad_signature_rejected (s : StandardSigner)
    (issuer cert : Certificate) (check : CheckSigFn) (create : CreateResponseFn)
    (now : Time) (req : SignRequest)
    (hc : req.certificate = some cert) (hi : s.issuer = some issuer)
    (hname : cert.rawIssuer = issuer.rawSubject)
    (hsig : check cert issuer = false) :
    s.Sign check create now req = GoResult.err "TODO" := by
  simp [StandardSigner.Sign, StandardSigner.signTemplate, hc, hi, hname, hsig]

/-- Witness for C1 at a concrete matching-but-unverifiable certificate. -/
theorem Sign_bad_signature_rejected_witness :
    exCert.rawIssuer = exIssuer.rawSubject ∧
    checkFalse exCert exIssuer = false ∧
    exSigner.Sign checkFalse exCreate 0 exReqGood = GoResult.err "TODO" :=
  ⟨rfl, rfl,
   Sign_bad_signature_rejected exSigner exIssuer exCert checkFalse exCreate 0
     exReqGood rfl rfl rfl rfl⟩

/-- Characterization of successful template construction: `signTemplate`
returns `ok t` exactly when the certificate is present, the issuer is
non-nil, both trust checks pass and the status token is recognized, and
then `t` is exactly the assembled template. -/
lemma signTemplate_ok_iff (s : StandardSigner) (check : CheckSigFn)
    (now : Time) (req : SignRequest) (t : OcspResponse) :
    s.signTemplate check now req = GoResult.ok t ↔
    ∃ cert issuer c, req.certificate = some cert ∧ s.issuer = some issuer ∧
      cert.rawIssuer = issuer.rawSubject ∧ check cert issuer = true ∧
      statusCode req.status = some c ∧
      t = { status := c
            serialNumber := cert.serialNumber
            thisUpdate := timeRound now Hour
            nextUpdate := timeRound now Hour + s.interval
            certificate := s.responder
            revokedAt := if c = ocspRevoked then req.revokedAt else 0
            revocationReason := if c = ocspRevoked then req.reason else 0 } := by
  constructor
  · intro hok
    unfold StandardSigner.signTemplate at hok
    split at hok
    · exact GoResult.noConfusion hok
    · rename_i cert hcert
      split at hok
      · exact GoResult.noConfusion hok
      · rename_i issuer hi
        split at hok
        · exact GoResult.noConfusion hok
        · rename_i hname
          split at hok
          · exact GoResult.noConfusion hok
          · rename_i hsig
            split at hok
            · exact GoResult.noConfusion hok
            · rename_i c hst
              push_neg at hname
              refine ⟨cert, issuer, c, hcert, hi, hname, ?_, hst, ?_⟩
              · cases hb : check cert issuer
                · exact absurd hb hsig
                · rfl
              · split at hok
                · rename_i hrev
                  injection hok with h
                  subst h
                  simp [hrev]
                · rename_i hrev
                  injection hok with h
                  subst h
                  simp [hrev]
  · rintro ⟨cert, issuer, c, hcert, hi, hname, hsig, hst, ht⟩
    subst ht
    unfold StandardSigner.signTemplate
    rw [hcert, hi]
    simp only [hname, ne_eq, not_true_eq_false, if_false, hsig, hst,
      Bool.true_eq_false, ite_false]
    by_cases hrev : c = ocspRevoked
    · simp [hrev]
    · simp [hrev]

/-- Claim C6: the status lookup is total on exactly the three tokens
`good`, `revoked`, `unknown`, mapping them to the protocol codes 0, 1, 2;
every other token misses the map, in which case `Sign` fails with the
invalid-request error rather than defaulting; and for a recognized token a
successful call's template status equals the corresponding code. -/
theorem statusCode_closed_and_enforced :
    (statusCode "good" = some ocspGood ∧ statusCode "revoked" = some ocspRevoked ∧
      statusCode "unknown" = some ocspUnknown) ∧
    (∀ st : String, st ≠ "good" → st ≠ "revoked" → st ≠ "unknown" →
      statusCode st = none) ∧
    (∀ (s : StandardSigner) (issuer : Certificate) (check : CheckSigFn)
        (create : CreateResponseFn) (now : Time) (req : SignRequest),
        s.issuer = some issuer → statusCode req.status = none →
        s.Sign check create now req = GoResult.err "TODO") ∧
    (∀ (s : StandardSigner) (check : CheckSigFn) (now : Time)
        (req : SignRequest) (t : OcspResponse) (c : Int),
        statusCode req.status = some c →
        s.signTemplate check now req = GoResult.ok t → t.status = c) := by
  refine ⟨⟨rfl, rfl, rfl⟩, ?_, ?_, ?_⟩
  · intro st h1 h2 h3
    simp [statusCode, h1, h2, h3]
  · intro s issuer check create now req hi hst
    cases hcert : req.certificate with
    | none => simp [StandardSigner.Sign, StandardSigner.signTemplate, hcert]
    | some cert =>
      by_cases hname : cert.rawIssuer = issuer.rawSubject
      · by_cases hsig : check cert issuer = false
        · simp [StandardSigner.Sign, StandardSigner.signTemplate, hcert, hi, hname, hsig]
        · simp [StandardSigner.Sign, StandardSigner.signTemplate, hcert, hi, hname, hsig, hst]
      · simp [StandardSigner.Sign, StandardSigner.signTemplate, hcert, hi, hname]
  · intro s check now req t c hst hok
    obtain ⟨cert, issuer, c2, _, _, _, _, hst2, ht⟩ := (signTemplate_ok_iff s check now req t).1 hok
    rw [hst] at hst2
    injection hst2 with hc
    subst ht
    exact hc.symm

/-- Witness for C6: the bogus token misses the map and a concrete call
with it is rejected; the revoked token resolves to code 1 in a concrete
successful template. -/
theorem statusCode_closed_and_enforced_witness :
    statusCode "bogus" = none ∧
    exSigner.Sign checkTrue exCreate 0 exReqBogus = GoResult.err "TODO" :=
  ⟨statusCode_closed_and_enforced.2.1 "bogus" (by decide) (by decide) (by decide),
   statusCode_closed_and_enforced.2.2.1 exSigner exIssuer checkTrue exCreate 0
     exReqBogus rfl (by decide)⟩

/-- The template produced for `exReqGood` at time 0. -/
def exTemplateGood : OcspResponse :=
  { status := 0, serialNumber := 42, thisUpdate := 0, nextUpdate := 3600000000000,
    certificate := some exResponder, revokedAt := 0, revocationReason := 0 }

/-- The template produced for `exReqRevoked` at time 0. -/
def exTemplateRevoked : OcspResponse :=
  { status := 1, serialNumber := 42, thisUpdate := 0, nextUpdate := 3600000000000,
    certificate := some exResponder, revokedAt := 12345, revocationReason := 1 }

/-- Claim C5: a successful template carries the request's revocation
timestamp and reason exactly when its status is the revoked code; for any
other resolved status both fields are the zero values, even when the
request populated them. -/
theorem revocation_fields_iff_revoked (s : StandardSigner) (check : CheckSigFn)
    (now : Time) (req : SignRequest) (t : OcspResponse)
    (h : s.signTemplate check now req = GoResult.ok t) :
    (t.status = ocspRevoked →
      t.revokedAt = req.revokedAt ∧ t.revocationReason = req.reason) ∧
    (t.status ≠ ocspRevoked → t.revokedAt = 0 ∧ t.revocationReason = 0) := by
  obtain ⟨cert, issuer, c, _, _, _, _, _, ht⟩ := (signTemplate_ok_iff s check now req t).1 h
  subst ht
  constructor
  · intro hrev
    simp only [OcspResponse.status] at hrev
    simp [hrev]
  · intro hrev
    simp only [OcspResponse.status] at hrev
    simp [hrev]

/-- Witness for C5: with status `good` and populated revocation data the
template's revocation fields are zero; with status `revoked` they carry
the request's values. -/
theorem revocation_fields_iff_revoked_witness :
    exSigner.signTemplate checkTrue 0 exReqGood = GoResult.ok exTemplateGood ∧
    (exTemplateGood.revokedAt = 0 ∧ exTemplateGood.revocationReason = 0) ∧
    exSigner.signTemplate checkTrue 0 exReqRevoked = GoResult.ok exTemplateRevoked ∧
    (exTemplateRevoked.revokedAt = exReqRevoked.revokedAt ∧
      exTemplateRevoked.revocationReason = exReqRevoked.reason) :=
  ⟨by decide,
   (revocation_fields_iff_revoked exSigner checkTrue 0 exReqGood exTemplateGood
      (by decide)).2 (by decide),
   by decide,
   (revocation_fields_iff_revoked exSigner checkTrue 0 exReqRevoked exTemplateRevoked
      (by decide)).1 (by decide)⟩

/-- Claim C8: in every successful template, `nextUpdate` equals
`thisUpdate` plus the identity's interval, and `NewSigner` with an
interval of `n` seconds stores an interval of exactly `n` seconds. -/
theorem nextUpdate_interval_exact :
    (∀ (s : StandardSigner) (check : CheckSigFn) (now : Time)
        (req : SignRequest) (t : OcspResponse),
        s.signTemplate check now req = GoResult.ok t →
        t.nextUpdate = t.thisUpdate + s.interval) ∧
    (∀ (issuer responder : Option Certificate) (key : Option Key) (n : Int)
        (s : StandardSigner),
        NewSigner issuer responder key n = Except.ok s →
        s.interval = n * Second) := by
  constructor
  · intro s check now req t h
    obtain ⟨cert, issuer, c, _, _, _, _, _, ht⟩ := (signTemplate_ok_iff s check now req t).1 h
    subst ht
    rfl
  · intro issuer responder key n s h
    simp only [NewSigner, Except.ok.injEq] at h
    subst h
    rfl

/-- Witness for C8 at a 3600-second interval and a concrete call. -/
theorem nextUpdate_interval_exact_witness :
    exSigner.signTemplate checkTrue 0 exReqRevoked = GoResult.ok exTemplateRevoked ∧
    exTemplateRevoked.nextUpdate = exTemplateRevoked.thisUpdate + exSigner.interval ∧
    NewSigner (some exIssuer) (some exResponder) (some exKey) 3600 = Except.ok exSigner ∧
    exSigner.interval = 3600 * Second :=
  ⟨by decide,
   nextUpdate_interval_exact.1 exSigner checkTrue 0 exReqRevoked exTemplateRevoked (by decide),
   rfl,
   nextUpdate_interval_exact.2 (some exIssuer) (some exResponder) (some exKey) 3600
     exSigner rfl⟩

/-- Claim C4, counterexample: at 30 minutes past the hour (time
1800000000000 ns) the code's `Round` sends `thisUpdate` UP to the next
hour boundary (3600000000000), while truncation to the start of the
current hour would give 0 — so `thisUpdate` is not the truncated time and
can be rounded up. -/
theorem thisUpdate_not_truncated :
    (exSigner.signTemplate checkTrue 1800000000000 exReqGood).map OcspResponse.thisUpdate
      = GoResult.ok 3600000000000 ∧
    specTruncateToHour 1800000000000 = 0 ∧
    (3600000000000 : Int) ≠ 0 := by decide

/-- Claim C4, amended: in every successful call the template's
`thisUpdate` is the current time rounded to the NEAREST hour since the
zero time (halfway values rounding up), which may be the start of the
next hour rather than the truncation to the current hour. -/
theorem thisUpdate_rounded_nearest_hour (s : StandardSigner) (check : CheckSigFn)
    (now : Time) (req : SignRequest) (t : OcspResponse)
    (h : s.signTemplate check now req = GoResult.ok t) :
    t.thisUpdate = timeRound now Hour := by
  obtain ⟨cert, issuer, c, _, _, _, _, _, ht⟩ := (signTemplate_ok_iff s check now req t).1 h
  subst ht
  rfl

/-- The template produced for `exReqGood` at time 1800000000000. -/
def exTemplateHalfHour : OcspResponse :=
  { status := 0, serialNumber := 42, thisUpdate := 3600000000000,
    nextUpdate := 7200000000000, certificate := some exResponder,
    revokedAt := 0, revocationReason := 0 }

/-- Witness for the amended C4 at 30 minutes past the hour. -/
theorem thisUpdate_rounded_nearest_hour_witness :
    exSigner.signTemplate checkTrue 1800000000000 exReqGood
      = GoResult.ok exTemplateHalfHour ∧
    exTemplateHalfHour.thisUpdate = timeRound 1800000000000 Hour :=
  ⟨by decide,
   thisUpdate_rounded_nearest_hour exSigner checkTrue 1800000000000 exReqGood
     exTemplateHalfHour (by decide)⟩

/-- Claim C9: four concrete requests that fail the four different checks
of `Sign` — missing certificate, issuer-name mismatch, failed
signature-chain verification, unrecognized status token — all return the
very same error value (message `"TODO"`), so the four rejection reasons
are not pairwise distinguishable from the returned error alone. -/
theorem Sign_rejection_errors_all_identical :
    exSigner.Sign checkTrue exCreate 0 exReqNoCert = GoResult.err "TODO" ∧
    exSigner.Sign checkTrue exCreate 0 exReqForeign = GoResult.err "TODO" ∧
    exSigner.Sign checkFalse exCreate 0 exReqGood = GoResult.err "TODO" ∧
    exSigner.Sign checkTrue exCreate 0 exReqBogus = GoResult.err "TODO" := by
  decide

/-- A file system in which the three paths hold three distinct artifacts. -/
def exReadFile : ReadFileFn := fun path =>
  if path = "issuer.pem" then .ok [1]
  else if path = "responder.pem" then .ok [2]
  else .ok [9]

/-- A parsing oracle that embeds the input bytes into the certificate, so
distinct file contents parse to distinct certificates. -/
def exParseCert : ParseCertFn := fun b =>
  .ok { rawIssuer := [0], rawSubject := b, serialNumber := 0 }

/-- A key-parsing oracle embedding the input bytes. -/
def exParseKey : ParseKeyFn := fun b => .ok { keyBytes := b }

/-- Claim C3: with distinct bytes at the issuer path
(`[1]`) and the responder path (`[2]`), the constructed signer's
responder certificate is the one parsed from the ISSUER file's bytes
`[1]` — the responder path's bytes `[2]` are never read, because the
source's second `ReadFile` call passes `issuerFile` again. -/
theorem fromFile_responder_read_from_issuer_path :
    NewStandardSignerFromFile exReadFile exParseCert exParseKey
        "issuer.pem" "responder.pem" "key.pem" 60
      = Except.ok
          { issuer := some { rawIssuer := [0], rawSubject := [1], serialNumber := 0 }
            responder := some { rawIssuer := [0], rawSubject := [1], serialNumber := 0 }
            key := some { keyBytes := [9] }
            interval := 60 * Second } ∧
    exReadFile "responder.pem" = Except.ok [2] ∧
    exParseCert [2]
      = Except.ok { rawIssuer := [0], rawSubject := [2], serialNumber := 0 } ∧
    ({ rawIssuer := [0], rawSubject := [2], serialNumber := 0 } : Certificate)
      ≠ { rawIssuer := [0], rawSubject := [1], serialNumber := 0 } := by
  refine ⟨rfl, rfl, rfl, by decide⟩

/-- Claim C10: `NewSigner` returns a signer and a nil error for every
combination of inputs — including nil issuer or responder certificates, a
nil key, and a negative interval — so its error arm is unreachable and
all validation is deferred to `Sign`. -/
theorem NewSigner_never_errs (issuer responder : Option Certificate)
    (key : Option Key) (interval : Int) :
    NewSigner issuer responder key interval =
      Except.ok { issuer := issuer, responder := responder, key := key,
                  interval := interval * Second } := rfl

end Ocsp
